import Mathlib

/-
Verification of the `@ngx-pwa/local-storage` repository core against its
natural-language specification.

The embedding covers:
  * the JSON Schema validator (`JSONValidator` in src/src/lib/src/tokens.ts,
    second document: `validate`, `validateObject`, `validateRequired`,
    `validateConst`, `validateEnum`, `validateArray`, `validateString`,
    `validateBoolean`, `validateNumber`);
  * the backend selector (`localDatabaseFactory` in src/unnamed/part_000).

Modelling choices, documented once here:
  * JavaScript numbers are finite IEEE-754 binary64 values, represented by
    their exact rational value (every finite double is a dyadic rational).
    NaN, the signed infinities and the sign of zero are outside the model; no claim
    under consideration involves them.  The one arithmetic operation the
    validator performs on data, the division `data / schema.multipleOf`, is
    modelled exactly: the rational quotient is rounded to the nearest
    binary64 value (ties to even), as IEEE-754 division prescribes.
  * JavaScript strings are Lean strings; `.length` counts code points where
    JS counts UTF-16 units, which agree on all strings considered here.
  * `===` / SameValueZero equality is structural on primitives and `null`.
    Two distinct composite (array/object) literals are never equal under
    SameValueZero in JS (reference equality); the value model reflects this
    by making composites compare unequal.  Aliasing (the same reference
    occurring twice in one array) is not representable in a value model.
  * `new RegExp(p).test(s)` is a host facility; the validator is
    parameterised by an oracle `re : String → String → Bool` standing for it.
    No claim depends on regular-expression semantics.
  * Thrown `Error`s are `Except.error` carrying the message; a JS function
    that can throw is embedded as `Except String _`.
  * The top-level `validate` switches on `schema.type` with no default case,
    so a schema whose type tag is unrecognized makes the TS method return
    `undefined`: the embedding returns `Except.ok none`, while the six
    recognized tags return `Except.ok (some b)`.  At the recursive call
    sites (`!this.validate(...)`) `undefined` is falsy, which the embedding
    mirrors by treating `ok none` like `ok (some false)` there.
  * The `JSONSchema` TypeScript interface file itself is not part of the
    sources; the field inventory of each schema variant below is modelled
    from the spec (same per-type constraint sets) and from the validator's
    own field accesses.
-/

set_option maxRecDepth 40000

/-! ## IEEE-754 binary64 numbers as exact rationals -/

/-- Floor of log2, computed by halving with an explicit fuel argument
(structural recursion, so the kernel can evaluate it). -/
def nlog2fuel : ℕ → ℕ → ℕ
  | 0, _ => 0
  | fuel + 1, n => if n ≤ 1 then 0 else 1 + nlog2fuel fuel (n / 2)

/-- `nlog2 n = ⌊log₂ n⌋` for `2 ≤ n < 2 ^ 4096` (every magnitude occurring in a
finite double fits far below this bound), and `0` for `n ≤ 1`. -/
def nlog2 (n : ℕ) : ℕ := nlog2fuel 4096 n

/-- Does `n / d < 2 ^ e` hold?  (`n`, `d` positive naturals, `e` an integer). -/
def ltPow2 (n d : ℕ) (e : ℤ) : Bool :=
  if 0 ≤ e then n < 2 ^ e.toNat * d else n * 2 ^ (-e).toNat < d

/-- Round the positive rational `n / d` to the nearest binary64 value
(round half to even), returned as an exact rational.  The computation is the
textbook one: find the exponent `e` with `2 ^ e ≤ n / d < 2 ^ (e + 1)`, round
the 53-bit significand `n / d * 2 ^ (52 - e)` half-to-even, and scale back.
Exponent overflow/underflow is not modelled (irrelevant for the magnitudes in
scope). -/
def b64roundPos (n d : ℕ) : ℚ :=
  let e0 : ℤ := (nlog2 n : ℤ) - (nlog2 d : ℤ)
  let e : ℤ := if ltPow2 n d e0 then e0 - 1 else e0
  let s : ℤ := 52 - e
  let n' : ℕ := if 0 ≤ s then n * 2 ^ s.toNat else n
  let d' : ℕ := if 0 ≤ s then d else d * 2 ^ (-s).toNat
  let f : ℕ := n' / d'
  let r : ℕ := n' % d'
  let m : ℕ :=
    if 2 * r < d' then f else if d' < 2 * r then f + 1 else if f % 2 = 0 then f else f + 1
  if 0 ≤ e - 52 then mkRat (m * 2 ^ (e - 52).toNat) 1 else mkRat m (2 ^ (52 - e).toNat)

/-- Round a rational to the nearest binary64 value (ties to even). -/
def roundB64 (q : ℚ) : ℚ :=
  if q.num = 0 then 0
  else if 0 < q.num then b64roundPos q.num.toNat q.den
  else - b64roundPos (-q.num).toNat q.den

/-- Exact rational division, written on `num`/`den` directly so the kernel can
evaluate it.  (Division by zero yields `0`; the validator only divides by a
`multipleOf` it has already checked to be strictly positive.) -/
def divQ (a b : ℚ) : ℚ :=
  mkRat (if 0 ≤ b.num then a.num * (b.den : ℤ) else -(a.num * (b.den : ℤ)))
    (a.den * b.num.natAbs)

/-- IEEE-754 binary64 division: round the exact quotient to nearest, ties to
even.  This is what `data / schema.multipleOf` computes in JS. -/
def jsDiv (a b : ℚ) : ℚ := roundB64 (divQ a b)

/-- `Number.isInteger` on a finite double: its exact rational value has
denominator 1. -/
def jsIsInteger (q : ℚ) : Bool := q.den == 1

/-- The binary64 value of the JS literal `0.3`:
`0.3` rounds to `5404319552844595 * 2 ^ (-54)`. -/
def dbl03 : ℚ := mkRat 5404319552844595 18014398509481984

/-- The binary64 value of the JS literal `0.1`:
`0.1` rounds to `3602879701896397 * 2 ^ (-55)`. -/
def dbl01 : ℚ := mkRat 3602879701896397 36028797018963968

/-! ## JavaScript values -/

/-- A JSON-ish JavaScript value: the data side of `validate(data, schema)`. -/
inductive JSVal where
  | str (s : String)
  | num (q : ℚ)
  | bool (b : Bool)
  | null
  | arr (xs : List JSVal)
  | obj (fields : List (String × JSVal))

/-- `typeof data` restricted to the values in the model
(`typeof null` and `typeof []` are both `"object"` in JS). -/
def jsTypeof : JSVal → String
  | .str _ => "string"
  | .num _ => "number"
  | .bool _ => "boolean"
  | .null => "object"
  | .arr _ => "object"
  | .obj _ => "object"

/-- SameValueZero / `===` equality on model values: structural on primitives
and `null`; composites (which JS compares by reference) compare unequal, see
the module comment. -/
def sameValueZero : JSVal → JSVal → Bool
  | .str a, .str b => decide (a = b)
  | .num a, .num b => decide (a = b)
  | .bool a, .bool b => decide (a = b)
  | .null, .null => true
  | _, _ => false

/-- First-match lookup in an object's own properties. -/
def fieldsGet : List (String × JSVal) → String → Option JSVal
  | [], _ => none
  | (k0, v) :: rest, k => if k0 = k then some v else fieldsGet rest k

/-- Own-property access `data[k]`.  On arrays the own properties are the
canonical index strings `"0"`, `"1"`, … and the non-enumerable `"length"`. -/
def jsGet : JSVal → String → Option JSVal
  | .obj fields, k => fieldsGet fields k
  | .arr xs, k =>
      if k = "length" then some (.num (xs.length : ℚ))
      else (List.range xs.length).findSome? fun i => if toString i = k then xs.get? i else none
  | _, _ => none

/-- `data.hasOwnProperty(k)`. -/
def jsHasOwn (d : JSVal) (k : String) : Bool := (jsGet d k).isSome

/-- `data[k]`, defaulted (only used by the validator under a `jsHasOwn`
guard, so the default is never observable). -/
def jsGetD (d : JSVal) (k : String) : JSVal := (jsGet d k).getD .null

/-- `Object.keys(data)`: enumerable own property names.  For arrays these are
the index strings (`"length"` is not enumerable).  Only called by the
validator on values that passed the object-type guard. -/
def jsKeys : JSVal → List String
  | .obj fields => fields.map Prod.fst
  | .arr xs => (List.range xs.length).map toString
  | _ => []

/-- The guard opening `validateObject`:
`(data === null) || (typeof data !== 'object')`. -/
def objTypeGuardFails : JSVal → Bool
  | .null => true
  | d => jsTypeof d != "object"

/-- Replace the value stored under key `k` (wherever it occurs), keeping the
key set and order intact.  Used to express that the validator never looks at
values stored under keys the schema does not declare. -/
def setFieldAll (fields : List (String × JSVal)) (k : String) (v : JSVal) :
    List (String × JSVal) :=
  fields.map fun p => if p.1 = k then (p.1, v) else p

/-- Membership under SameValueZero, as `Set`/`indexOf` use it. -/
def svzContains (xs : List JSVal) (v : JSVal) : Bool := xs.any (sameValueZero v)

/-- `new Set(xs).size`: the number of SameValueZero-distinct elements (each
value counted once, at its last occurrence). -/
def setSizeSVZ : List JSVal → ℕ
  | [] => 0
  | v :: rest => (if svzContains rest v then 0 else 1) + setSizeSVZ rest

/-- Some element occurs twice (under SameValueZero) in the list. -/
def hasDupSVZ : List JSVal → Bool
  | [] => false
  | v :: rest => svzContains rest v || hasDupSVZ rest

/-! ## Schemas -/

/-- A scalar `const`/`enum` entry (the scalar schema variants carry consts of
their own type). -/
inductive ConstV where
  | s (v : String)
  | n (v : ℚ)
  | b (v : Bool)

/-- The JS value denoted by a scalar constant. -/
def constToVal : ConstV → JSVal
  | .s v => .str v
  | .n v => .num v
  | .b v => .bool v

/-- JS truthiness test on a scalar constant: `false`, `0` and `""` are falsy.
(`!schema.const` in the source.) -/
def constFalsy : ConstV → Bool
  | .s v => v == ""
  | .n v => v == 0
  | .b v => v == false

/-- `JSONValidator.validateConst` (tokens.ts:123-131): skipped when
`schema.const` is falsy (absent, or a falsy constant), else `data === const`. -/
def validateConst (data : JSVal) (c : Option ConstV) : Bool :=
  match c with
  | none => true
  | some c0 => if constFalsy c0 then true else sameValueZero data (constToVal c0)

/-- `JSONValidator.validateEnum` (tokens.ts:133-142): skipped when
`schema.enum` is absent (an array is always truthy), else
`indexOf(data) !== -1` under `===`. -/
def validateEnum (data : JSVal) (e : Option (List ConstV)) : Bool :=
  match e with
  | none => true
  | some l => l.any fun c0 => sameValueZero data (constToVal c0)

mutual
/-- The schema union.  The runtime dispatch is on the string `schema.type`,
so the model closes the union with `jother tag` for any unrecognized tag
(TS types are erased at runtime).  `jnumber intType` covers both the
`'number'` and the `'integer'` tag, which share `validateNumber`; the field
inventory of each variant is modelled from the spec, the interface file not
being among the sources. -/
inductive JSONSchema where
  | jstring (c : Option String) (en : Option (List String)) (maxLength minLength : Option ℚ)
      (pat : Option String)
  | jnumber (intType : Bool) (c : Option ℚ) (en : Option (List ℚ))
      (multipleOf maximum exclusiveMaximum minimum exclusiveMinimum : Option ℚ)
  | jboolean (c : Option Bool)
  | jarray (items : JSONSchema) (maxItems minItems : Option ℚ) (uniqueItems : Option Bool)
  | jobject (properties : JSONProps) (required : Option (List String))
  | jother (tag : String)
/-- `schema.properties`: an ordered string-keyed map of sub-schemas (a
separate inductive so the validator's recursion is structural). -/
inductive JSONProps where
  | nil
  | cons (key : String) (sch : JSONSchema) (rest : JSONProps)
end

/-- `Object.keys(schema.properties).length`. -/
def propsCount : JSONProps → ℕ
  | .nil => 0
  | .cons _ _ rest => 1 + propsCount rest

/-- `schema.properties.hasOwnProperty(k)`. -/
def propsHasKey : JSONProps → String → Bool
  | .nil, _ => false
  | .cons k0 _ rest, k => decide (k0 = k) || propsHasKey rest k

/-- The scalar constant carried by a scalar schema variant, if any. -/
def scalarConst : JSONSchema → Option ConstV
  | .jstring c _ _ _ _ => c.map .s
  | .jnumber _ c _ _ _ _ _ _ => c.map .n
  | .jboolean c => c.map .b
  | _ => none

/-! ## The validator -/

/-- `Number.isInteger(q) && q >= 0`: the well-formedness test the source
applies to `maxLength`/`minLength`/`maxItems`/`minItems`. -/
def isNonNegIntB (q : ℚ) : Bool := jsIsInteger q && decide (0 ≤ q)

/-- The `maxLength` paragraph of `validateString` (tokens.ts:214-224);
`k` is the rest of the method. -/
def checkMaxLength (s : String) (b : Option ℚ) (k : Except String Bool) : Except String Bool :=
  match b with
  | none => k
  | some q =>
      if !isNonNegIntB q then .error "'maxLength' must be a non-negative integer."
      else if decide (q < (s.length : ℚ)) then .ok false
      else k

/-- The `minLength` paragraph of `validateString` (tokens.ts:226-236). -/
def checkMinLength (s : String) (b : Option ℚ) (k : Except String Bool) : Except String Bool :=
  match b with
  | none => k
  | some q =>
      if !isNonNegIntB q then .error "'minLength' must be a non-negative integer."
      else if decide ((s.length : ℚ) < q) then .ok false
      else k

/-- The `pattern` paragraph of `validateString` (tokens.ts:238-246):
`if (schema.pattern)` skips the test when the pattern is absent or the empty
string (both falsy); `re` stands for `new RegExp(p).test(s)`. -/
def checkPattern (re : String → String → Bool) (s : String) (p : Option String) : Bool :=
  match p with
  | none => true
  | some p0 => if p0 = "" then true else re p0 s

/-- `JSONValidator.validateString` (tokens.ts:200-250).  The data value is the
last parameter (the recursion of `validate` is structural in the schema). -/
def validateString (re : String → String → Bool) (c : Option String)
    (en : Option (List String)) (maxL minL : Option ℚ) (pat : Option String) :
    JSVal → Except String Bool
  | .str s =>
      if !validateConst (.str s) (c.map ConstV.s) then .ok false
      else if !validateEnum (.str s) (en.map (List.map ConstV.s)) then .ok false
      else checkMaxLength s maxL (checkMinLength s minL (.ok (checkPattern re s pat)))
  | _ => .ok false

/-- `JSONValidator.validateBoolean` (tokens.ts:252-264). -/
def validateBoolean (c : Option Bool) : JSVal → Bool
  | .bool b => validateConst (.bool b) (c.map ConstV.b)
  | _ => false

/-- The `multipleOf` paragraph of `validateNumber` (tokens.ts:284-294):
throws on `multipleOf <= 0`, else fails unless
`Number.isInteger(data / multipleOf)` — a binary64 quotient. -/
def checkMultipleOf (d : ℚ) (mOf : Option ℚ) (k : Except String Bool) : Except String Bool :=
  match mOf with
  | none => k
  | some m =>
      if decide (m ≤ 0) then .error "'multipleOf' must be a number strictly greater than 0."
      else if !jsIsInteger (jsDiv d m) then .ok false
      else k

/-- The four range comparisons closing `validateNumber` (tokens.ts:296-314),
each independently optional. -/
def numBoundsOk (d : ℚ) (mx emx mn emn : Option ℚ) : Bool :=
  !(mx.any (fun q => decide (q < d)) || emx.any (fun q => decide (q ≤ d)) ||
    mn.any (fun q => decide (d < q)) || emn.any (fun q => decide (d ≤ q)))

/-- `JSONValidator.validateNumber` (tokens.ts:266-316); `intType` records
whether `schema.type === 'integer'`. -/
def validateNumber (intType : Bool) (c : Option ℚ) (en : Option (List ℚ))
    (mOf mx emx mn emn : Option ℚ) : JSVal → Except String Bool
  | .num d =>
      if intType && !jsIsInteger d then .ok false
      else if !validateConst (.num d) (c.map ConstV.n) then .ok false
      else if !validateEnum (.num d) (en.map (List.map ConstV.n)) then .ok false
      else checkMultipleOf d mOf (.ok (numBoundsOk d mx emx mn emn))
  | _ => .ok false

/-- The loop body of `JSONValidator.validateRequired` (tokens.ts:105-117):
first an undeclared required name throws, then a declared-but-absent one
fails the validation. -/
def validateRequiredLoop (data : JSVal) (props : JSONProps) :
    List String → Except String Bool
  | [] => .ok true
  | r :: rest =>
      if !propsHasKey props r then
        .error "'required' properties must be described in 'properties' too."
      else if !jsHasOwn data r then .ok false
      else validateRequiredLoop data props rest

/-- `JSONValidator.validateRequired` (tokens.ts:99-121). -/
def validateRequired (data : JSVal) (props : JSONProps) (req : Option (List String)) :
    Except String Bool :=
  match req with
  | none => .ok true
  | some l => validateRequiredLoop data props l

/-- The `maxItems` paragraph of `validateArray` (tokens.ts:150-160). -/
def checkMaxItems (xs : List JSVal) (b : Option ℚ) (k : Except String Bool) :
    Except String Bool :=
  match b with
  | none => k
  | some q =>
      if !isNonNegIntB q then .error "'maxItems' must be a non-negative integer."
      else if decide (q < (xs.length : ℚ)) then .ok false
      else k

/-- The `minItems` paragraph of `validateArray` (tokens.ts:162-172). -/
def checkMinItems (xs : List JSVal) (b : Option ℚ) (k : Except String Bool) :
    Except String Bool :=
  match b with
  | none => k
  | some q =>
      if !isNonNegIntB q then .error "'minItems' must be a non-negative integer."
      else if decide ((xs.length : ℚ) < q) then .ok false
      else k

/-- The `uniqueItems` paragraph of `validateArray` (tokens.ts:174-186):
compare `data.length` with `new Set(data).size`. -/
def checkUniqueItems (xs : List JSVal) (u : Option Bool) (k : Except String Bool) :
    Except String Bool :=
  match u with
  | none => k
  | some u0 =>
      if u0 then (if xs.length ≠ setSizeSVZ xs then .ok false else k) else k

/-- The element loop closing `validateArray` (tokens.ts:188-196): stop at the
first element whose validation is not `true` (an `undefined` from an
unrecognized nested tag is falsy there too); a thrown error propagates. -/
def validateItems (f : JSVal → Except String (Option Bool)) :
    List JSVal → Except String Bool
  | [] => .ok true
  | v :: rest =>
      match f v with
      | .error m => .error m
      | .ok (some true) => validateItems f rest
      | .ok _ => .ok false

/-- `JSONValidator.validateArray` (tokens.ts:144-198), parameterised by the
validation of one element against `schema.items`. -/
def validateArray (f : JSVal → Except String (Option Bool)) (maxI minI : Option ℚ)
    (uniq : Option Bool) : JSVal → Except String Bool
  | .arr xs => checkMaxItems xs maxI (checkMinItems xs minI
      (checkUniqueItems xs uniq (validateItems f xs)))
  | _ => .ok false

mutual
/-- `JSONValidator.validate` (tokens.ts:42-60): dispatch on `schema.type`
with no default case — an unrecognized tag returns `undefined` (`ok none`).
The object branch is `validateObject` (tokens.ts:62-97) inlined: the
null/type guard, the closed-shape key-count check, `validateRequired`, then
the recursive walk over the declared properties.  (The source signature is
`validate(data, schema)`; the schema comes first here so that the recursion
is structural in it.) -/
def validate (re : String → String → Bool) : JSONSchema → JSVal → Except String (Option Bool)
  | .jstring c en maxL minL pat, data =>
      Except.map some (validateString re c en maxL minL pat data)
  | .jnumber intType c en mOf mx emx mn emn, data =>
      Except.map some (validateNumber intType c en mOf mx emx mn emn data)
  | .jboolean c, data => .ok (some (validateBoolean c data))
  | .jarray items maxI minI uniq, data =>
      Except.map some (validateArray (fun v => validate re items v) maxI minI uniq data)
  | .jobject props req, data =>
      if objTypeGuardFails data then .ok (some false)
      else if decide (propsCount props < (jsKeys data).length) then .ok (some false)
      else
        match validateRequired data props req with
        | .error m => .error m
        | .ok false => .ok (some false)
        | .ok true => Except.map some (validateProps re props data)
  | .jother _, _ => .ok none

/-- The property loop of `validateObject` (tokens.ts:80-93): every property
declared by the schema and present in the data is validated recursively; a
result that is not `true` (false, or `undefined` from an unrecognized nested
tag) fails the object. -/
def validateProps (re : String → String → Bool) : JSONProps → JSVal → Except String Bool
  | .nil, _ => .ok true
  | .cons k psch rest, data =>
      if jsHasOwn data k then
        match validate re psch (jsGetD data k) with
        | .error m => .error m
        | .ok (some true) => validateProps re rest data
        | .ok _ => .ok false
      else validateProps re rest data
end

/-- A regular-expression oracle used to instantiate closed statements; none
of the properties proved below depend on the oracle. -/
def regexAlwaysTrue : String → String → Bool := fun _ _ => true

/-! ## The backend selector (src/unnamed/part_000) -/

/-- How the probe `indexedDB.open('testStorage')` behaves in the host:
it can throw synchronously at the call, or complete asynchronously with an
error event (firing the `onerror` handler after the factory has returned),
or succeed asynchronously. -/
inductive IDBOpenOutcome where
  | syncThrow
  | asyncError
  | asyncSuccess
deriving DecidableEq

/-- The host capabilities probed by the factory. -/
structure SelectorEnv where
  browser : Bool
  idbPresent : Bool
  lsPresent : Bool
  openOutcome : IDBOpenOutcome
deriving DecidableEq

/-- The backend picked by the factory. -/
inductive LocalDatabase where
  | indexedDB (pfx : Option String)
  | localStorage (pfx : Option String)
  | mock
deriving DecidableEq

/-- `localDatabaseFactory` (part_000:10-40), synchronous execution.  Inside
`try`: when the platform is a browser and `indexedDB` is present, the factory
calls `indexedDB.open('testStorage')`, installs the `onsuccess`/`onerror`
handlers, and returns `new IndexedDBDatabase(prefix)` — the open request's
outcome is not awaited, so only a synchronous throw from `open` reaches the
`catch`, which falls past the `else if` straight to `new MockLocalDatabase()`.
Otherwise, a browser with `localStorage` gets `new LocalStorageDatabase(prefix)`,
and anything else the mock. -/
def localDatabaseFactory (env : SelectorEnv) (pfx : Option String) : LocalDatabase :=
  if env.browser && env.idbPresent then
    match env.openOutcome with
    | .syncThrow => .mock
    | _ => .indexedDB pfx
  else if env.browser && env.lsPresent then .localStorage pfx
  else .mock

/-- When the open request errors asynchronously, the installed `onerror`
handler (part_000:21-23) throws from an event callback: the surrounding
`try`/`catch` has already been exited, so the throw is an uncaught
asynchronous error. -/
def selectorAsyncUncaughtThrow (env : SelectorEnv) : Bool :=
  env.browser && env.idbPresent &&
    (match env.openOutcome with | .asyncError => true | _ => false)

/-! ## Helper lemmas -/

theorem map_some_ok_true {x : Except String Bool}
    (h : Except.map some x = .ok (some true)) : x = .ok true := by
  cases x with
  | error m => simp [Except.map] at h
  | ok b => simp [Except.map] at h; rw [h]

theorem map_some_ne_ok_true {x : Except String Bool}
    (h : x ≠ .ok true) : Except.map some x ≠ .ok (some true) := by
  intro hc
  exact h (map_some_ok_true hc)

/-! ## C1 — backend selector vs. the capability probe -/

/-- C1: the claim asserts that when the transactional-object-store probe
errors, the selector falls through to the Legacy Synchronous Store Adapter
(localStorage) with no uncaught error.  Evaluating `localDatabaseFactory` at
the spec's own scenario (browser platform, `indexedDB` and `localStorage`
both present, the probe's open request erroring asynchronously as in
private-browsing permission denial) shows the divergence: the factory has
already returned `IndexedDBDatabase` — the selection never falls through —
and the `onerror` handler's `throw` escapes as an uncaught asynchronous
error.  Even a synchronous throw from `open` is caught in a way that skips
the `localStorage` branch and yields the mock (volatile) database. -/
theorem C1_selector_probe_divergence :
    localDatabaseFactory ⟨true, true, true, .asyncError⟩ none = .indexedDB none ∧
    localDatabaseFactory ⟨true, true, true, .asyncError⟩ none ≠ .localStorage none ∧
    selectorAsyncUncaughtThrow ⟨true, true, true, .asyncError⟩ = true ∧
    localDatabaseFactory ⟨true, true, true, .syncThrow⟩ none = .mock ∧
    localDatabaseFactory ⟨true, true, true, .syncThrow⟩ none ≠ .localStorage none := by
  refine ⟨rfl, ?_, rfl, rfl, ?_⟩ <;> decide

/-! ## C2 — `multipleOf` and binary64 division -/

/-- C2 counterexample: the claim asserts
`validate(0.3, {type:"number", multipleOf:0.1})` returns `true`.  With exact
binary64 semantics the quotient `0.3 / 0.1` is
`6755399441055743 * 2 ^ (-51) = 2.9999999999999996`, not an integer, so the
code returns `false`. -/
theorem C2_zero_point_three_not_multiple :
    validate regexAlwaysTrue (.jnumber false none none (some dbl01) none none none none)
      (.num dbl03) = .ok (some false) := by
  with_unfolding_all rfl

/-- C2 amended: with a strictly positive `multipleOf` (and no other
constraints), divisibility is decided by `Number.isInteger(data / multipleOf)`
— an "is the floating-point quotient an integer" test, not a floating
remainder — where the quotient is computed in binary64.  For the literals
`0.3` and `0.1` this quotient is `2.9999999999999996` and validation returns
`false`. -/
theorem C2_amended_multipleOf_quotient (re : String → String → Bool) (d m : ℚ) (h : 0 < m) :
    validate re (.jnumber false none none (some m) none none none none) (.num d) =
      .ok (some (jsIsInteger (jsDiv d m))) := by
  have hm : ¬ (m ≤ 0) := not_le.mpr h
  cases hj : jsIsInteger (jsDiv d m) <;>
    simp [validate, validateNumber, validateConst, validateEnum, checkMultipleOf,
      numBoundsOk, Option.any, hm, hj, Except.map]

/-- C2 amended, witness: the amended theorem applied at the binary64 values
of the literals `0.3` and `0.1`. -/
theorem C2_amended_witness :
    (0 : ℚ) < dbl01 ∧
    validate regexAlwaysTrue (.jnumber false none none (some dbl01) none none none none)
      (.num dbl03) = .ok (some (jsIsInteger (jsDiv dbl03 dbl01))) :=
  ⟨by with_unfolding_all decide,
   C2_amended_multipleOf_quotient regexAlwaysTrue dbl03 dbl01 (by with_unfolding_all decide)⟩

/-! ## C4 — malformed bound constraints -/

/-- C4 counterexample: the claim asserts that a schema whose `maxLength` is
not a non-negative integer makes `validate` raise for *every* data value.
But the type guard runs first: on non-string data the method returns `false`
without ever inspecting the malformed bound. -/
theorem C4_malformed_bound_no_raise_on_type_mismatch :
    validate regexAlwaysTrue (.jstring none none (some (-1)) none none) (.num 42) =
      .ok (some false) := by
  with_unfolding_all rfl

/-- C4 amended: the schema-authoring error for a malformed
`maxLength`/`minLength`/`maxItems`/`minItems`/`multipleOf` is raised exactly
when evaluation reaches that constraint: the data must already have passed
the type guard and every preceding check (shown here with the preceding
optional constraints absent); when an earlier check fails first, `validate`
returns `false` instead (counterexample above). -/
theorem C4_amended_malformed_bound_raises_when_reached :
    (∀ (re : String → String → Bool) (s : String) (q : ℚ), isNonNegIntB q = false →
      validate re (.jstring none none (some q) none none) (.str s) =
        .error "'maxLength' must be a non-negative integer.") ∧
    (∀ (re : String → String → Bool) (s : String) (q : ℚ), isNonNegIntB q = false →
      validate re (.jstring none none none (some q) none) (.str s) =
        .error "'minLength' must be a non-negative integer.") ∧
    (∀ (re : String → String → Bool) (xs : List JSVal) (it : JSONSchema) (q : ℚ),
      isNonNegIntB q = false →
      validate re (.jarray it (some q) none none) (.arr xs) =
        .error "'maxItems' must be a non-negative integer.") ∧
    (∀ (re : String → String → Bool) (xs : List JSVal) (it : JSONSchema) (q : ℚ),
      isNonNegIntB q = false →
      validate re (.jarray it none (some q) none) (.arr xs) =
        .error "'minItems' must be a non-negative integer.") ∧
    (∀ (re : String → String → Bool) (d m : ℚ), m ≤ 0 →
      validate re (.jnumber false none none (some m) none none none none) (.num d) =
        .error "'multipleOf' must be a number strictly greater than 0.") := by
  refine ⟨?_, ?_, ?_, ?_, ?_⟩
  · intro re s q h
    simp [validate, validateString, validateConst, validateEnum, checkMaxLength, h,
      Except.map]
  · intro re s q h
    simp [validate, validateString, validateConst, validateEnum, checkMaxLength,
      checkMinLength, h, Except.map]
  · intro re xs it q h
    simp [validate, validateArray, checkMaxItems, h, Except.map]
  · intro re xs it q h
    simp [validate, validateArray, checkMaxItems, checkMinItems, h, Except.map]
  · intro re d m h
    have h' : decide (m ≤ 0) = true := decide_eq_true h
    simp [validate, validateNumber, validateConst, validateEnum, checkMultipleOf, h',
      Except.map]

/-- C4 amended, witness: `maxLength: -1` reached by string data raises. -/
theorem C4_amended_witness :
    isNonNegIntB (-1) = false ∧
    validate regexAlwaysTrue (.jstring none none (some (-1)) none none) (.str "a") =
      .error "'maxLength' must be a non-negative integer." :=
  ⟨by with_unfolding_all decide,
   C4_amended_malformed_bound_raises_when_reached.1 regexAlwaysTrue "a" (-1)
     (by with_unfolding_all decide)⟩

/-! ## C5 — `required` naming an undeclared property -/

/-- C5 counterexample: the claim asserts the fatal error is raised for
*every* data value when `required` names an undeclared property.  But the
object-type guard runs first: on non-object data `validate` returns `false`
and the `required` list is never inspected. -/
theorem C5_required_undeclared_no_raise_on_type_mismatch :
    validate regexAlwaysTrue (.jobject .nil (some ["a"])) (.str "x") = .ok (some false) := rfl

/-- C5 amended: the distinct fatal error is raised when the `required` check
is actually reached — the data is a non-null object-typed value whose key
count does not exceed the schema's declared property count — and the
undeclared name is encountered before any required property missing from the
data (here: heading the `required` list).  Otherwise an earlier check
returns `false` first (counterexample above). -/
theorem C5_amended_required_undeclared_raises_when_reached
    (re : String → String → Bool) (data : JSVal) (props : JSONProps)
    (r : String) (rest : List String)
    (h1 : objTypeGuardFails data = false)
    (h2 : ¬ propsCount props < (jsKeys data).length)
    (h3 : propsHasKey props r = false) :
    validate re (.jobject props (some (r :: rest))) data =
      .error "'required' properties must be described in 'properties' too." := by
  simp [validate, h1, h2, validateRequired, validateRequiredLoop, h3]

/-- C5 amended, witness: the empty object against
`{properties: {}, required: ["a"]}` raises. -/
theorem C5_amended_witness :
    objTypeGuardFails (.obj []) = false ∧
    ¬ propsCount .nil < (jsKeys (.obj [])).length ∧
    propsHasKey .nil "a" = false ∧
    validate regexAlwaysTrue (.jobject .nil (some ["a"])) (.obj []) =
      .error "'required' properties must be described in 'properties' too." :=
  ⟨rfl, by decide, rfl,
   C5_amended_required_undeclared_raises_when_reached regexAlwaysTrue (.obj []) .nil "a" []
     rfl (by decide) rfl⟩

/-! ## C8 — no default case in the type dispatch -/

/-- C8: `validate` dispatches only on `schema.type`; a schema whose type tag
is none of the recognized tags falls through the `switch` with no default
case, so the method produces no boolean — it returns `undefined`, modelled
as `ok none`. -/
theorem C8_unrecognized_tag_no_boolean (re : String → String → Bool)
    (data : JSVal) (tag : String) :
    validate re (.jother tag) data = .ok none := rfl

/-! ## C10 — arrays pass the object-variant type guard -/

/-- C10: the object-variant guard `(data === null) || (typeof data !== 'object')`
rejects exactly `null` and the non-object-typed values; since
`typeof [] === 'object'`, an array passes the guard, and the empty array
validates successfully against `{type:"object", properties:{}}`. -/
theorem C10_array_passes_object_guard :
    (∀ xs, objTypeGuardFails (.arr xs) = false) ∧
    (∀ fs, objTypeGuardFails (.obj fs) = false) ∧
    objTypeGuardFails .null = true ∧
    (∀ s, objTypeGuardFails (.str s) = true) ∧
    (∀ q, objTypeGuardFails (.num q) = true) ∧
    (∀ b, objTypeGuardFails (.bool b) = true) ∧
    (∀ re, validate re (.jobject .nil none) (.arr []) = .ok (some true)) :=
  ⟨fun _ => rfl, fun _ => rfl, rfl, fun _ => rfl, fun _ => rfl, fun _ => rfl,
   fun _ => by with_unfolding_all rfl⟩

/-! ## C7 — `uniqueItems` -/

theorem setSizeSVZ_le (xs : List JSVal) : setSizeSVZ xs ≤ xs.length := by
  induction xs with
  | nil => simp [setSizeSVZ]
  | cons v rest ih =>
      simp only [setSizeSVZ, List.length_cons]
      split <;> omega

theorem hasDupSVZ_eq_false_iff (xs : List JSVal) :
    hasDupSVZ xs = false ↔ setSizeSVZ xs = xs.length := by
  induction xs with
  | nil => simp [hasDupSVZ, setSizeSVZ]
  | cons v rest ih =>
      have hle := setSizeSVZ_le rest
      cases hc : svzContains rest v
      · have e1 : hasDupSVZ (v :: rest) = hasDupSVZ rest := by simp [hasDupSVZ, hc]
        have e2 : setSizeSVZ (v :: rest) = 1 + setSizeSVZ rest := by simp [setSizeSVZ, hc]
        rw [e1, e2, ih, List.length_cons]
        constructor
        · intro h; omega
        · intro h; omega
      · have e1 : hasDupSVZ (v :: rest) = true := by simp [hasDupSVZ, hc]
        have e2 : setSizeSVZ (v :: rest) = setSizeSVZ rest := by simp [setSizeSVZ, hc]
        rw [e1, e2, List.length_cons]
        constructor
        · intro h; cases h
        · intro h; exfalso; omega

theorem checkMaxItems_ne_ok_true (xs : List JSVal) (b : Option ℚ) (k : Except String Bool)
    (hk : k ≠ .ok true) : checkMaxItems xs b k ≠ .ok true := by
  cases b with
  | none => simpa [checkMaxItems] using hk
  | some q =>
      simp only [checkMaxItems]
      split_ifs
      · simp
      · simp
      · exact hk

theorem checkMinItems_ne_ok_true (xs : List JSVal) (b : Option ℚ) (k : Except String Bool)
    (hk : k ≠ .ok true) : checkMinItems xs b k ≠ .ok true := by
  cases b with
  | none => simpa [checkMinItems] using hk
  | some q =>
      simp only [checkMinItems]
      split_ifs
      · simp
      · simp
      · exact hk

/-- C7: with `uniqueItems: true`, an array in which some element occurs twice
(under the SameValueZero equality `new Set` uses — value equality on
primitives) never validates: whatever the bound constraints, the result is
never `true` (a malformed bound may raise instead of returning `false`), and
with no bound constraints the result is exactly `false`.  In particular
`[1,1]` against `{type:"array", uniqueItems:true, items:{type:"integer"}}`
yields `false` and `[1,2]` yields `true`. -/
theorem C7_uniqueItems_duplicates_fail (re : String → String → Bool) :
    (∀ (xs : List JSVal) (it : JSONSchema) (maxI minI : Option ℚ), hasDupSVZ xs = true →
      validate re (.jarray it maxI minI (some true)) (.arr xs) ≠ .ok (some true)) ∧
    (∀ (xs : List JSVal) (it : JSONSchema), hasDupSVZ xs = true →
      validate re (.jarray it none none (some true)) (.arr xs) = .ok (some false)) ∧
    validate re
      (.jarray (.jnumber true none none none none none none none) none none (some true))
      (.arr [.num 1, .num 1]) = .ok (some false) ∧
    validate re
      (.jarray (.jnumber true none none none none none none none) none none (some true))
      (.arr [.num 1, .num 2]) = .ok (some true) := by
  have hsize : ∀ xs : List JSVal, hasDupSVZ xs = true → xs.length ≠ setSizeSVZ xs := by
    intro xs h he
    have h0 : hasDupSVZ xs = false := (hasDupSVZ_eq_false_iff xs).mpr he.symm
    simp [h0] at h
  refine ⟨?_, ?_, ?_, ?_⟩
  · intro xs it maxI minI h
    have hu : checkUniqueItems xs (some true)
        (validateItems (fun v => validate re it v) xs) = .ok false := by
      simp [checkUniqueItems, hsize xs h]
    show Except.map some (validateArray (fun v => validate re it v) maxI minI
      (some true) (.arr xs)) ≠ .ok (some true)
    apply map_some_ne_ok_true
    simp only [validateArray]
    apply checkMaxItems_ne_ok_true
    apply checkMinItems_ne_ok_true
    rw [hu]
    simp
  · intro xs it h
    simp [validate, validateArray, checkMaxItems, checkMinItems, checkUniqueItems,
      hsize xs h, Except.map]
  · with_unfolding_all rfl
  · with_unfolding_all rfl

/-- C7 witness: the general statement applied at the duplicate array
`[1, 1]`. -/
theorem C7_witness :
    hasDupSVZ [.num 1, .num 1] = true ∧
    validate regexAlwaysTrue (.jarray (.jboolean none) none none (some true))
      (.arr [.num 1, .num 1]) = .ok (some false) :=
  ⟨by with_unfolding_all rfl,
   (C7_uniqueItems_duplicates_fail regexAlwaysTrue).2.1 [.num 1, .num 1] (.jboolean none)
     (by with_unfolding_all rfl)⟩

/-! ## C3 — falsy `const` values are skipped -/

theorem sameValueZero_constToVal {d : JSVal} {cv : ConstV}
    (h : sameValueZero d (constToVal cv) = true) : d = constToVal cv := by
  cases cv <;> cases d <;> simp_all [sameValueZero, constToVal]

/-- C3 counterexample: the claim asserts that whenever `const` is present,
`validate` returns `true` only for data exactly equal to the constant.  But
the source tests `if (!schema.const)`, which also skips the check for the
*falsy* constants `false`, `0` and `""`: `true` validates against
`{type:"boolean", const:false}`. -/
theorem C3_falsy_const_skipped :
    validate regexAlwaysTrue (.jboolean (some false)) (.bool true) = .ok (some true) ∧
    JSVal.bool true ≠ constToVal (.b false) :=
  ⟨rfl, by simp [constToVal]⟩

/-- C3 amended: the `const` check is skipped when `const` is absent *or when
the constant is JS-falsy* (`false`, `0`, `""`); for a scalar schema carrying
a truthy constant, `validate` returns `true` only when the data is exactly
(`===`) that constant. -/
theorem C3_amended_const_truthy_exact (re : String → String → Bool) (d : JSVal)
    (sch : JSONSchema) (cv : ConstV)
    (h1 : scalarConst sch = some cv) (h2 : constFalsy cv = false)
    (h3 : validate re sch d = .ok (some true)) : d = constToVal cv := by
  cases sch with
  | jstring c en maxL minL pat =>
      cases c with
      | none => simp [scalarConst] at h1
      | some s0 =>
          simp only [scalarConst, Option.map_some'] at h1
          injection h1 with h1
          subst h1
          have h4 : validateString re (some s0) en maxL minL pat d = .ok true :=
            map_some_ok_true h3
          cases d with
          | str s =>
              simp only [validateString] at h4
              by_cases hc : validateConst (.str s) (some (.s s0)) = true
              · have hs : s = s0 := by
                  simpa [validateConst, h2, sameValueZero, constToVal] using hc
                rw [hs]; rfl
              · have hc' : validateConst (.str s) (some (.s s0)) = false := by
                  simpa using hc
                simp [hc'] at h4
          | num q => simp [validateString] at h4
          | bool b => simp [validateString] at h4
          | null => simp [validateString] at h4
          | arr xs => simp [validateString] at h4
          | obj fs => simp [validateString] at h4
  | jnumber intType c en mOf mx emx mn emn =>
      cases c with
      | none => simp [scalarConst] at h1
      | some n0 =>
          simp only [scalarConst, Option.map_some'] at h1
          injection h1 with h1
          subst h1
          have h4 : validateNumber intType (some n0) en mOf mx emx mn emn d = .ok true :=
            map_some_ok_true h3
          cases d with
          | num q =>
              simp only [validateNumber] at h4
              by_cases hint : (intType && !jsIsInteger q) = true
              · simp [hint] at h4
              · have hint' : (intType && !jsIsInteger q) = false := by simpa using hint
                by_cases hc : validateConst (.num q) (some (.n n0)) = true
                · have hq : q = n0 := by
                    simpa [validateConst, h2, sameValueZero, constToVal] using hc
                  rw [hq]; rfl
                · have hc' : validateConst (.num q) (some (.n n0)) = false := by
                    simpa using hc
                  simp [hint', hc'] at h4
          | str s => simp [validateNumber] at h4
          | bool b => simp [validateNumber] at h4
          | null => simp [validateNumber] at h4
          | arr xs => simp [validateNumber] at h4
          | obj fs => simp [validateNumber] at h4
  | jboolean c =>
      cases c with
      | none => simp [scalarConst] at h1
      | some b0 =>
          simp only [scalarConst, Option.map_some'] at h1
          injection h1 with h1
          subst h1
          have h4 : validateBoolean (some b0) d = true := by
            simpa [validate] using h3
          cases d with
          | bool b =>
              have hb : b = b0 := by
                simpa [validateBoolean, validateConst, h2, sameValueZero,
                  constToVal] using h4
              rw [hb]; rfl
          | str s => simp [validateBoolean] at h4
          | num q => simp [validateBoolean] at h4
          | null => simp [validateBoolean] at h4
          | arr xs => simp [validateBoolean] at h4
          | obj fs => simp [validateBoolean] at h4
  | jarray it maxI minI uniq => simp [scalarConst] at h1
  | jobject props req => simp [scalarConst] at h1
  | jother tag => simp [scalarConst] at h1

/-- C3 amended, witness: the truthy constant `true` does force exact
equality. -/
theorem C3_amended_witness :
    scalarConst (.jboolean (some true)) = some (.b true) ∧
    constFalsy (.b true) = false ∧
    validate regexAlwaysTrue (.jboolean (some true)) (.bool true) = .ok (some true) ∧
    JSVal.bool true = constToVal (.b true) :=
  ⟨rfl, rfl, rfl,
   C3_amended_const_truthy_exact regexAlwaysTrue (.bool true) (.jboolean (some true))
     (.b true) rfl rfl rfl⟩

/-! ## C6 — closed object shape; undeclared data properties not validated -/

theorem setFieldAll_cons (p : String × JSVal) (rest : List (String × JSVal)) (k : String)
    (v : JSVal) :
    setFieldAll (p :: rest) k v = (if p.1 = k then (p.1, v) else p) :: setFieldAll rest k v := rfl

theorem fieldsGet_setFieldAll_ne (fields : List (String × JSVal)) (k : String) (v : JSVal)
    (k0 : String) (h : k0 ≠ k) :
    fieldsGet (setFieldAll fields k v) k0 = fieldsGet fields k0 := by
  induction fields with
  | nil => rfl
  | cons p rest ih =>
      obtain ⟨pk, pv⟩ := p
      rw [setFieldAll_cons]
      by_cases hpk : pk = k
      · have hne : ¬ (pk = k0) := fun hh => h (hh.symm.trans hpk)
        rw [if_pos hpk]
        simp only [fieldsGet]
        rw [if_neg hne, if_neg hne]
        exact ih
      · rw [if_neg hpk]
        simp only [fieldsGet]
        by_cases hk0 : pk = k0
        · rw [if_pos hk0, if_pos hk0]
        · rw [if_neg hk0, if_neg hk0]
          exact ih

theorem fieldsGet_setFieldAll_isSome (fields : List (String × JSVal)) (k : String)
    (v : JSVal) (k0 : String) :
    (fieldsGet (setFieldAll fields k v) k0).isSome = (fieldsGet fields k0).isSome := by
  induction fields with
  | nil => rfl
  | cons p rest ih =>
      obtain ⟨pk, pv⟩ := p
      rw [setFieldAll_cons]
      by_cases hpk : pk = k
      · rw [if_pos hpk]
        simp only [fieldsGet]
        by_cases hk0 : pk = k0
        · rw [if_pos hk0, if_pos hk0]; rfl
        · rw [if_neg hk0, if_neg hk0]; exact ih
      · rw [if_neg hpk]
        simp only [fieldsGet]
        by_cases hk0 : pk = k0
        · rw [if_pos hk0, if_pos hk0]
        · rw [if_neg hk0, if_neg hk0]; exact ih

theorem jsHasOwn_setFieldAll (fields : List (String × JSVal)) (k : String) (v : JSVal)
    (k0 : String) :
    jsHasOwn (.obj (setFieldAll fields k v)) k0 = jsHasOwn (.obj fields) k0 := by
  simp only [jsHasOwn, jsGet]
  exact fieldsGet_setFieldAll_isSome fields k v k0

theorem jsGetD_setFieldAll_ne (fields : List (String × JSVal)) (k : String) (v : JSVal)
    (k0 : String) (h : k0 ≠ k) :
    jsGetD (.obj (setFieldAll fields k v)) k0 = jsGetD (.obj fields) k0 := by
  simp only [jsGetD, jsGet]
  rw [fieldsGet_setFieldAll_ne fields k v k0 h]

theorem validateRequiredLoop_setFieldAll (fields : List (String × JSVal)) (k : String)
    (v : JSVal) (props : JSONProps) (l : List String) :
    validateRequiredLoop (.obj (setFieldAll fields k v)) props l =
      validateRequiredLoop (.obj fields) props l := by
  induction l with
  | nil => rfl
  | cons r rest ih =>
      simp only [validateRequiredLoop, jsHasOwn_setFieldAll, ih]

theorem validateRequired_setFieldAll (fields : List (String × JSVal)) (k : String)
    (v : JSVal) (props : JSONProps) (req : Option (List String)) :
    validateRequired (.obj (setFieldAll fields k v)) props req =
      validateRequired (.obj fields) props req := by
  cases req with
  | none => rfl
  | some l => exact validateRequiredLoop_setFieldAll fields k v props l

theorem validateProps_setFieldAll (re : String → String → Bool)
    (fields : List (String × JSVal)) (v1 v2 : JSVal) (k : String) :
    ∀ props : JSONProps, propsHasKey props k = false →
      validateProps re props (.obj (setFieldAll fields k v1)) =
        validateProps re props (.obj (setFieldAll fields k v2))
  | .nil, _ => rfl
  | .cons k0 psch rest, h => by
      simp only [propsHasKey, Bool.or_eq_false_iff, decide_eq_false_iff_not] at h
      obtain ⟨hk0, h2⟩ := h
      simp only [validateProps]
      rw [jsHasOwn_setFieldAll fields k v1 k0, jsHasOwn_setFieldAll fields k v2 k0,
        jsGetD_setFieldAll_ne fields k v1 k0 hk0,
        jsGetD_setFieldAll_ne fields k v2 k0 hk0,
        validateProps_setFieldAll re fields v1 v2 k rest h2]

/-- C6: the closed-shape rule.  (i) For every non-null object-typed data
value, when the schema declares strictly fewer properties than the data has
keys (an aggregate count comparison), `validate` returns `false`.  (ii) The
validator walks only the schema's declared properties: changing the value
stored in data under a key the schema does not declare cannot change the
result — such properties are never individually validated. -/
theorem C6_closed_shape_extras_unvalidated (re : String → String → Bool) :
    (∀ (data : JSVal) (props : JSONProps) (req : Option (List String)),
      objTypeGuardFails data = false →
      propsCount props < (jsKeys data).length →
      validate re (.jobject props req) data = .ok (some false)) ∧
    (∀ (fields : List (String × JSVal)) (k : String) (v1 v2 : JSVal)
      (props : JSONProps) (req : Option (List String)),
      propsHasKey props k = false →
      validate re (.jobject props req) (.obj (setFieldAll fields k v1)) =
        validate re (.jobject props req) (.obj (setFieldAll fields k v2))) := by
  constructor
  · intro data props req h1 h2
    simp [validate, h1, h2]
  · intro fields k v1 v2 props req h
    have hkeys : ∀ v : JSVal, (jsKeys (JSVal.obj (setFieldAll fields k v))).length =
        fields.length := by
      intro v
      simp [jsKeys, setFieldAll]
    have hreq1 := validateRequired_setFieldAll fields k v1 props req
    have hreq2 := validateRequired_setFieldAll fields k v2 props req
    have hprops := validateProps_setFieldAll re fields v1 v2 k props h
    simp [validate, objTypeGuardFails, jsTypeof, hkeys, hreq1, hreq2, hprops]

/-- C6 witness: (i) two data keys against one declared property fails; (ii)
the value under the undeclared key `"x"` is irrelevant to the result. -/
theorem C6_witness :
    (objTypeGuardFails (.obj [("a", .null), ("b", .null)]) = false ∧
     propsCount (.cons "a" (.jboolean none) .nil) <
       (jsKeys (.obj [("a", .null), ("b", .null)])).length ∧
     validate regexAlwaysTrue (.jobject (.cons "a" (.jboolean none) .nil) none)
       (.obj [("a", .null), ("b", .null)]) = .ok (some false)) ∧
    (propsHasKey (.cons "a" (.jboolean none) .nil) "x" = false ∧
     validate regexAlwaysTrue (.jobject (.cons "a" (.jboolean none) .nil) none)
       (.obj (setFieldAll [("a", .bool true), ("x", .null)] "x" (.num 1))) =
       validate regexAlwaysTrue (.jobject (.cons "a" (.jboolean none) .nil) none)
         (.obj (setFieldAll [("a", .bool true), ("x", .null)] "x" (.str "y")))) :=
  ⟨⟨rfl, by decide,
    (C6_closed_shape_extras_unvalidated regexAlwaysTrue).1
      (.obj [("a", .null), ("b", .null)]) (.cons "a" (.jboolean none) .nil) none
      rfl (by decide)⟩,
   ⟨by decide,
    (C6_closed_shape_extras_unvalidated regexAlwaysTrue).2
      [("a", .bool true), ("x", .null)] "x" (.num 1) (.str "y")
      (.cons "a" (.jboolean none) .nil) none (by decide)⟩⟩
